import Mathlib

/-!
Shallow embedding of the forex-analyzer trade analytics core.

Conventions of the embedding:
* monetary values, prices and lot sizes are rationals (`ℚ`);
* timestamps are minutes since the Unix epoch (`Int`);
* Python `None` / missing dict keys / pandas `NaN` become `Option`;
* the Python float value `inf` used as a sentinel becomes `PyFloat.inf`.
-/

namespace ForexAnalyzer

/-- Python substring test `sub in s`. -/
def strContains (s sub : String) : Bool :=
  decide (List.IsInfix sub.toList s.toList)

/-- Python str.lower() (ASCII level). -/
def pyLower (s : String) : String := ⟨s.data.map Char.toLower⟩

/-- Python str.upper() (ASCII level). -/
def pyUpper (s : String) : String := ⟨s.data.map Char.toUpper⟩

/-- Python str.strip(). -/
def pyStrip (s : String) : String :=
  ⟨((s.data.dropWhile Char.isWhitespace).reverse.dropWhile Char.isWhitespace).reverse⟩

/-- Trade direction, from models/trading_data.py TradeType. -/
inductive TradeType where
  | buy
  | sell
deriving DecidableEq, Repr

/-- A Python float that is either a finite value or the +inf sentinel. -/
inductive PyFloat where
  | val (q : ℚ)
  | inf
deriving DecidableEq, Repr

/-- Canonical trade record, from models/trading_data.py Trade. -/
structure Trade where
  ticket : String
  open_time : Int
  close_time : Option Int := none
  type : TradeType
  size : ℚ
  symbol : String
  open_price : ℚ
  close_price : Option ℚ := none
  stop_loss : Option ℚ := none
  take_profit : Option ℚ := none
  commission : ℚ := 0
  swap : ℚ := 0
  profit : ℚ
  duration : Option ℚ := none
  pips : Option ℚ := none
  risk_reward_ratio : Option ℚ := none
deriving DecidableEq, Repr

/-- models/trading_data.py, the `pips` field validator `calculate_pips`.
`v` is the previously supplied value of the field (returned unchanged when the
computation is skipped); the guard on `close_price` is Python truthiness, so a
present value of `0` also skips the computation. -/
def calculate_pips (v : Option ℚ) (symbol : String) (open_price : ℚ)
    (close_price : Option ℚ) (ty : TradeType) : Option ℚ :=
  match close_price with
  | some cp =>
      if cp = 0 then v
      else
        let pip_multiplier : ℚ :=
          if strContains symbol "JPY" || strContains symbol "HUF" then 100 else 10000
        match ty with
        | .buy => some ((cp - open_price) * pip_multiplier)
        | .sell => some ((open_price - cp) * pip_multiplier)
  | none => v

/-- Result record of models/trading_data.py TradingData.get_summary_stats. -/
structure SummaryStats where
  total_trades : ℕ
  winning_trades : ℕ
  losing_trades : ℕ
  win_rate : ℚ
  total_profit : ℚ
  average_win : ℚ
  average_loss : ℚ
  profit_factor : PyFloat
  largest_win : ℚ
  largest_loss : ℚ
deriving DecidableEq, Repr

/-- models/trading_data.py TradingData.get_summary_stats; the empty-list `{}`
early return is `none`. -/
def get_summary_stats (trades : List Trade) : Option SummaryStats :=
  if trades = [] then none
  else
    let profits := trades.map (·.profit)
    let winning := profits.filter (fun p => 0 < p)
    let losing := profits.filter (fun p => p < 0)
    some {
      total_trades := trades.length
      winning_trades := winning.length
      losing_trades := losing.length
      win_rate := (winning.length : ℚ) / trades.length
      total_profit := profits.sum
      average_win := if winning = [] then 0 else winning.sum / winning.length
      average_loss := if losing = [] then 0 else losing.sum / losing.length
      profit_factor := if losing = [] then .inf else .val |winning.sum / losing.sum|
      largest_win := (profits.max?).getD 0
      largest_loss := (profits.min?).getD 0 }

/-- The 3-trade scenario dataset fixed by the specification:
(buy EURUSD 1.1000 → 1.1050, +50), (sell EURUSD 1.1050 → 1.1100, −50),
(buy USDJPY 110.00 → 110.50, +45). -/
def scenarioTrades : List Trade :=
  [ { ticket := "1", open_time := 0, type := .buy, size := 1, symbol := "EURUSD",
      open_price := 11/10, close_price := some (221/200), profit := 50 },
    { ticket := "2", open_time := 1, type := .sell, size := 1, symbol := "EURUSD",
      open_price := 221/200, close_price := some (111/100), profit := -50 },
    { ticket := "3", open_time := 2, type := .buy, size := 1, symbol := "USDJPY",
      open_price := 110, close_price := some (221/2), profit := 45 } ]

namespace AnalysisEngine

/-- services/analysis_engine.py AnalysisEngine.trading_sessions, in the
insertion (enumeration) order of the Python dict: (name, start, stop). -/
def trading_sessions : List (String × ℕ × ℕ) :=
  [("Sydney", 21, 6), ("Tokyo", 23, 8), ("London", 7, 16), ("New York", 12, 21)]

/-- The per-session membership test inside the loop of
AnalysisEngine._get_trading_session: a session spanning midnight
(start > stop) contains hour iff hour ≥ start or hour < stop, a normal one
iff start ≤ hour < stop. -/
def sessionMatches (start stop hour : ℕ) : Bool :=
  if stop < start then start ≤ hour || hour < stop
  else start ≤ hour && hour < stop

/-- services/analysis_engine.py AnalysisEngine._get_trading_session. -/
def get_trading_session (hour : ℕ) : String :=
  match trading_sessions.find? (fun s => sessionMatches s.2.1 s.2.2 hour) with
  | some s => s.1
  | none => "Other"

end AnalysisEngine

namespace MLPipeline

/-- services/ml_pipeline.py MLPipeline._get_trading_session: local dict of
sessions, identical values and order as the analysis engine's. -/
def sessions : List (String × ℕ × ℕ) :=
  [("Sydney", 21, 6), ("Tokyo", 23, 8), ("London", 7, 16), ("New York", 12, 21)]

/-- services/ml_pipeline.py MLPipeline._get_trading_session. -/
def get_trading_session (hour : ℕ) : String :=
  match sessions.find? (fun s => AnalysisEngine.sessionMatches s.2.1 s.2.2 hour) with
  | some s => s.1
  | none => "Other"

end MLPipeline

/-- The session windows written as explicit hour sets, following the spec text:
Sydney 21:00–06:00, Tokyo 23:00–08:00, London 07:00–16:00,
New York 12:00–21:00 (end-exclusive UTC hours), in the fixed enumeration
order. -/
def specSessionHours : List (String × List ℕ) :=
  [ ("Sydney", [21, 22, 23, 0, 1, 2, 3, 4, 5]),
    ("Tokyo", [23, 0, 1, 2, 3, 4, 5, 6, 7]),
    ("London", [7, 8, 9, 10, 11, 12, 13, 14, 15]),
    ("New York", [12, 13, 14, 15, 16, 17, 18, 19, 20]) ]

/-- The spec's session assignment: the first session in the fixed enumeration
order whose window contains the hour, defaulting to "Other". -/
def specFirstSession (hour : ℕ) : String :=
  match specSessionHours.find? (fun s => s.2.contains hour) with
  | some s => s.1
  | none => "Other"

namespace DataProcessor

/-- services/data_processor.py DataProcessor.mt5_columns (header → canonical field). -/
def mt5_columns : List (String × String) :=
  [("Ticket", "ticket"), ("Open Time", "open_time"), ("Type", "type"),
   ("Size", "size"), ("Symbol", "symbol"), ("Price", "open_price"),
   ("S/L", "stop_loss"), ("T/P", "take_profit"), ("Close Time", "close_time"),
   ("Close Price", "close_price"), ("Commission", "commission"),
   ("Swap", "swap"), ("Profit", "profit")]

/-- services/data_processor.py DataProcessor.mt4_columns. -/
def mt4_columns : List (String × String) :=
  [("Order", "ticket"), ("Time", "open_time"), ("Type", "type"),
   ("Size", "size"), ("Item", "symbol"), ("Price", "open_price"),
   ("S / L", "stop_loss"), ("T / P", "take_profit"), ("Time.1", "close_time"),
   ("Price.1", "close_price"), ("Commission", "commission"),
   ("Taxes", "swap"), ("Swap", "swap"), ("Profit", "profit")]

/-- The MT5 indicator header set of DataProcessor._detect_source. -/
def mt5_indicators : List String := ["Ticket", "Open Time", "Close Time", "Symbol", "Type"]

/-- The MT4 indicator header set of DataProcessor._detect_source. -/
def mt4_indicators : List String := ["Order", "Time", "Item", "Type"]

/-- Python set.issubset over header lists. -/
def subsetOf (xs cols : List String) : Bool :=
  xs.all (fun x => cols.contains x)

/-- services/data_processor.py DataProcessor._detect_source: MT5 is detected
only when all five MT5 indicator headers are present, else MT4 only when all
four MT4 indicator headers are present, else "Generic". -/
def detect_source (cols : List String) : String :=
  if subsetOf mt5_indicators cols then "MT5"
  else if subsetOf mt4_indicators cols then "MT4"
  else "Generic"

/-- Python `any(keyword in s for keyword in kws)`. -/
def keywordAny (s : String) (kws : List String) : Bool :=
  kws.any (fun k => strContains s k)

/-- The per-column keyword chain of DataProcessor._auto_map_columns. -/
def auto_map_column (col : String) : Option String :=
  let l := pyStrip (pyLower col)
  if keywordAny l ["ticket", "order", "id"] then some "ticket"
  else if keywordAny l ["open", "start"] && keywordAny l ["time", "date"] then some "open_time"
  else if keywordAny l ["close", "end"] && keywordAny l ["time", "date"] then some "close_time"
  else if l = "type" ∨ l = "direction" ∨ l = "side" then some "type"
  else if keywordAny l ["size", "volume", "lot"] then some "size"
  else if keywordAny l ["symbol", "pair", "instrument"] then some "symbol"
  else if keywordAny l ["open"] && keywordAny l ["price"] then some "open_price"
  else if keywordAny l ["close"] && keywordAny l ["price"] then some "close_price"
  else if keywordAny l ["profit", "pnl", "p&l"] then some "profit"
  else if keywordAny l ["commission", "fee"] then some "commission"
  else if l = "swap" ∨ l = "rollover" then some "swap"
  else if keywordAny l ["sl", "stop"] then some "stop_loss"
  else if keywordAny l ["tp", "take"] then some "take_profit"
  else none

/-- services/data_processor.py DataProcessor._auto_map_columns (fuzzy fallback
mapping, header → canonical field, in header order). -/
def auto_map_columns (cols : List String) : List (String × String) :=
  cols.filterMap (fun c => (auto_map_column c).map (fun f => (c, f)))

/-- The mapping selection of DataProcessor._standardize_columns: detect the
source when declared "auto", then pick the MT5 or MT4 table by name, else
fall back to the fuzzy auto-mapping. -/
def choose_mapping (cols : List String) (source : String) : List (String × String) :=
  let src := if source = "auto" then detect_source cols else source
  if pyUpper src = "MT5" then mt5_columns
  else if pyUpper src = "MT4" then mt4_columns
  else auto_map_columns cols

/-- Column renaming of DataProcessor._standardize_columns: each header is
replaced by its canonical name when the chosen mapping has an entry for it. -/
def rename_columns (cols : List String) (mapping : List (String × String)) : List String :=
  cols.map (fun c =>
    match mapping.find? (fun p => p.1 = c) with
    | some p => p.2
    | none => c)

/-- The required canonical columns checked by _standardize_columns. -/
def required_columns : List String :=
  ["ticket", "open_time", "type", "size", "symbol", "open_price", "profit"]

/-- services/data_processor.py DataProcessor._standardize_columns on the
header row: raises ValueError (here `.error`) naming the missing required
columns. -/
def standardize_columns (cols : List String) (source : String) :
    Except (List String) (List String) :=
  let renamed := rename_columns cols (choose_mapping cols source)
  let missing := required_columns.filter (fun c => !(renamed.contains c))
  if missing = [] then .ok renamed else .error missing

/-- A header row exposing 4 of the 5 MT5 indicator headers (no "Symbol"). -/
def mt5PartialHeaders : List String := ["Ticket", "Open Time", "Close Time", "Type"]

/-- A row of the standardized trades DataFrame; `none` is pandas NaN/NaT.
Timestamps are minutes since epoch, so a time delta in minutes is a plain
difference. -/
structure RawRow where
  ticket : Option String := none
  open_time : Option Int := none
  close_time : Option Int := none
  type : Option String := none
  size : Option ℚ := none
  symbol : Option String := none
  open_price : Option ℚ := none
  close_price : Option ℚ := none
  stop_loss : Option ℚ := none
  take_profit : Option ℚ := none
  commission : Option ℚ := none
  swap : Option ℚ := none
  profit : Option ℚ := none
  duration : Option ℚ := none
  pips : Option ℚ := none
  risk_reward_ratio : Option ℚ := none
deriving DecidableEq, Repr

/-- Python str() of a possibly-NaN cell: NaN prints as "nan". -/
def toStr (s : Option String) : String := s.getD "nan"

/-- The trade-type synonym table of DataProcessor._convert_data_types;
a pandas `.map` miss is NaN (`none`). -/
def type_mapping (s : String) : Option String :=
  if s = "buy" ∨ s = "long" ∨ s = "0" ∨ s = "op_buy" then some "buy"
  else if s = "sell" ∨ s = "short" ∨ s = "1" ∨ s = "op_sell" then some "sell"
  else none

/-- services/data_processor.py DataProcessor._convert_data_types: the
datetime/numeric coercions are identities in this typed model; `type` is
stringified (NaN → "nan"), lowercased and mapped through the synonym table;
`ticket` is stringified. -/
def convert_data_types (r : RawRow) : RawRow :=
  { r with
    type := type_mapping (pyLower (toStr r.type))
    ticket := some (toStr r.ticket) }

/-- The close-price estimation branch of DataProcessor._handle_missing_values:
for rows with a close_time but no close_price, estimate the close price from
profit/size unless profit or size is exactly 0 (a NaN in either propagates to
a NaN close price). -/
def estimate_close_price (r : RawRow) : RawRow :=
  match r.close_time, r.close_price with
  | some _, none =>
      if r.profit ≠ some 0 ∧ r.size ≠ some 0 then
        let pip_value : ℚ := if strContains (toStr r.symbol) "JPY" then 1 else 1/10000
        let cp : Option ℚ := do
          let pf ← r.profit
          let sz ← r.size
          let op ← r.open_price
          let estimated_pips := pf / (sz * 100000 * pip_value)
          pure (if r.type = some "buy" then op + estimated_pips * pip_value
            else op - estimated_pips * pip_value)
        { r with close_price := cp }
      else r
  | _, _ => r

/-- services/data_processor.py DataProcessor._handle_missing_values: fill
stop_loss/take_profit/commission/swap NaNs with 0, keep open trades' NaT
close_time, then run the close-price estimation. -/
def handle_missing_values (r : RawRow) : RawRow :=
  estimate_close_price
    { r with
      stop_loss := some (r.stop_loss.getD 0)
      take_profit := some (r.take_profit.getD 0)
      commission := some (r.commission.getD 0)
      swap := some (r.swap.getD 0) }

/-- The row predicate of DataProcessor._remove_invalid_trades: essential
fields present, positive size and open price, type in {buy, sell}. -/
def valid_trade (r : RawRow) : Bool :=
  r.ticket.isSome && r.open_time.isSome && r.type.isSome && r.size.isSome &&
    r.symbol.isSome && r.open_price.isSome &&
    decide (0 < r.size.getD 0) && decide (0 < r.open_price.getD 0) &&
    (decide (r.type = some "buy") || decide (r.type = some "sell"))

/-- services/data_processor.py DataProcessor._remove_invalid_trades. -/
def remove_invalid_trades (rows : List RawRow) : List RawRow :=
  rows.filter valid_trade

/-- services/data_processor.py DataProcessor._calculate_additional_fields:
duration in minutes when close_time is present, direction- and
symbol-dependent pips when close_price is present, risk/reward ratio when
stop_loss and take_profit are both positive and the risk is positive. -/
def calculate_additional_fields (r : RawRow) : RawRow :=
  let r1 :=
    match r.close_time, r.open_time with
    | some ct, some ot => { r with duration := some ((ct - ot : ℤ) : ℚ) }
    | _, _ => r
  let r2 :=
    match r1.close_price with
    | some cp =>
        let symbol := pyUpper (toStr r1.symbol)
        let pip_multiplier : ℚ :=
          if strContains symbol "JPY" || strContains symbol "HUF" then 100 else 10000
        { r1 with pips := r1.open_price.map (fun op =>
            if r1.type = some "buy" then (cp - op) * pip_multiplier
            else (op - cp) * pip_multiplier) }
    | none => r1
  match r2.stop_loss, r2.take_profit with
  | some sl, some tp =>
      if 0 < sl ∧ 0 < tp then
        match r2.open_price with
        | some op =>
            let risk := if r2.type = some "buy" then op - sl else sl - op
            let reward := if r2.type = some "buy" then tp - op else op - tp
            if 0 < risk then { r2 with risk_reward_ratio := some (reward / risk) } else r2
        | none => r2
      else r2
  | _, _ => r2

/-- services/data_processor.py DataProcessor._clean_data: convert types,
handle missing values, drop invalid rows, compute derived fields, sort by
open_time ascending. -/
def clean_data (rows : List RawRow) : List RawRow :=
  (((remove_invalid_trades
      ((rows.map convert_data_types).map handle_missing_values)).map
    calculate_additional_fields).mergeSort
    (fun a b => decide (a.open_time.getD 0 ≤ b.open_time.getD 0)))

/-- Metadata record of DataProcessor._extract_metadata. -/
structure Metadata where
  source : String
  filename : String
  account : String
  currency : String
  leverage : ℕ
  total_trades : ℕ
  date_start : Option Int
  date_end : Option Int
deriving DecidableEq, Repr

/-- services/data_processor.py DataProcessor._extract_metadata over the
cleaned frame. -/
def extract_metadata (rows : List RawRow) (source filename : String) : Metadata :=
  { source := source
    filename := filename
    account := "unknown"
    currency :=
      if rows.any (fun r => strContains (toStr r.symbol) "USD") then "USD"
      else if rows.any (fun r => strContains (toStr r.symbol) "EUR") then "EUR"
      else "USD"
    leverage := 100
    total_trades := rows.length
    date_start := (rows.filterMap (·.open_time)).min?
    date_end :=
      if (rows.filterMap (·.close_time)) ≠ [] then (rows.filterMap (·.close_time)).max?
      else (rows.filterMap (·.open_time)).max? }

/-- The trade-facing part of DataProcessor.process_file after column
standardization: cleaned trades plus metadata extracted from them. -/
def processTrades (rows : List RawRow) (source filename : String) :
    List RawRow × Metadata :=
  (clean_data rows, extract_metadata (clean_data rows) source filename)

/-- A concrete input frame: one valid MT5-style row (in raw form, with an
uppercase type synonym) and one junk row lacking a symbol. -/
def sampleRows : List RawRow :=
  [ { ticket := some "100", open_time := some 500, close_time := some 560,
      type := some "Buy", size := some 1, symbol := some "EURUSD",
      open_price := some 2, close_price := some 3, profit := some 50 },
    { ticket := some "101", open_time := some 400, type := some "buy",
      size := some 1, open_price := some 1, profit := some 1 } ]

/-- The valid sample row after type conversion and missing-value handling:
type lowercased and mapped, cost fields filled with 0. -/
def sampleHandledRow : RawRow :=
  { ticket := some "100", open_time := some 500, close_time := some 560,
    type := some "buy", size := some 1, symbol := some "EURUSD",
    open_price := some 2, close_price := some 3, stop_loss := some 0,
    take_profit := some 0, commission := some 0, swap := some 0,
    profit := some 50 }

/-- The cleaned form of the valid sample row: type lowercased, cost fields
filled with 0, duration and pips computed. -/
def sampleCleanRow : RawRow :=
  { ticket := some "100", open_time := some 500, close_time := some 560,
    type := some "buy", size := some 1, symbol := some "EURUSD",
    open_price := some 2, close_price := some 3, stop_loss := some 0,
    take_profit := some 0, commission := some 0, swap := some 0,
    profit := some 50, duration := some 60, pips := some 10000,
    risk_reward_ratio := none }

end DataProcessor

namespace DataValidator

/-- A trade dict as the validator sees it (the shape produced by
DataProcessor._extract_trades: every key present, values possibly None).
Timestamps are pre-parsed instants in minutes since epoch; the ISO-format
parsing of the source is modeled as total, so the parse-failure error
branches are unreachable in this model. -/
structure VTrade where
  ticket : Option String := none
  open_time : Option Int := none
  close_time : Option Int := none
  type : Option String := none
  size : Option ℚ := none
  symbol : Option String := none
  open_price : Option ℚ := none
  close_price : Option ℚ := none
  stop_loss : Option ℚ := none
  take_profit : Option ℚ := none
  profit : Option ℚ := none
deriving DecidableEq, Repr

/-- Validator thresholds from DataValidator.__init__. -/
def min_trade_size : ℚ := 1/100

def max_trade_size : ℚ := 1000

def min_price : ℚ := 1/10000

def max_price : ℚ := 100000

/-- The missing-required-field error message (quotes around the field name
dropped). -/
def missing_msg (i : ℕ) (field : String) : String :=
  "Trade " ++ toString (i+1) ++ ": Missing required field " ++ field

/-- The required-field loop of DataValidator._validate_trades, in the fixed
field order. -/
def required_fields_errors (i : ℕ) (t : VTrade) : List String :=
  (if t.ticket.isNone then [missing_msg i "ticket"] else []) ++
  (if t.open_time.isNone then [missing_msg i "open_time"] else []) ++
  (if t.type.isNone then [missing_msg i "type"] else []) ++
  (if t.size.isNone then [missing_msg i "size"] else []) ++
  (if t.symbol.isNone then [missing_msg i "symbol"] else []) ++
  (if t.open_price.isNone then [missing_msg i "open_price"] else []) ++
  (if t.profit.isNone then [missing_msg i "profit"] else [])

/-- Trade-type check: with the key always present, an error fires whenever
the value (None included) is not buy or sell. -/
def type_errors (i : ℕ) (t : VTrade) : List String :=
  if t.type = some "buy" ∨ t.type = some "sell" then []
  else ["Trade " ++ toString (i+1) ++ ": Invalid trade type"]

/-- Size check: below the minimum is an error, above the maximum only a
warning. -/
def size_checks (i : ℕ) (t : VTrade) : List String × List String :=
  match t.size with
  | some s =>
      if s < min_trade_size then
        (["Trade " ++ toString (i+1) ++ ": Trade size too small"], [])
      else if max_trade_size < s then
        ([], ["Trade " ++ toString (i+1) ++ ": Very large trade size"])
      else ([], [])
  | none => ([], [])

/-- One price-field check: below the minimum is an error, above the maximum
only a warning. -/
def price_check (i : ℕ) (name : String) (v : Option ℚ) : List String × List String :=
  match v with
  | some p =>
      if p < min_price then
        (["Trade " ++ toString (i+1) ++ ": " ++ name ++ " too low"], [])
      else if max_price < p then
        ([], ["Trade " ++ toString (i+1) ++ ": Very high " ++ name])
      else ([], [])
  | none => ([], [])

/-- The four price-field checks in source order. -/
def price_checks (i : ℕ) (t : VTrade) : List String × List String :=
  let c1 := price_check i "open_price" t.open_price
  let c2 := price_check i "close_price" t.close_price
  let c3 := price_check i "stop_loss" t.stop_loss
  let c4 := price_check i "take_profit" t.take_profit
  (c1.1 ++ c2.1 ++ c3.1 ++ c4.1, c1.2 ++ c2.2 ++ c3.2 ++ c4.2)

/-- Future-dated open time is a warning, never an error. -/
def open_time_warnings (i : ℕ) (now : Int) (t : VTrade) : List String :=
  match t.open_time with
  | some ot => if now < ot then ["Trade " ++ toString (i+1) ++ ": Open time is in the future"] else []
  | none => []

/-- close_time before open_time is an error. -/
def close_time_errors (i : ℕ) (t : VTrade) : List String :=
  match t.close_time, t.open_time with
  | some ct, some ot =>
      if ct < ot then ["Trade " ++ toString (i+1) ++ ": Close time before open time"] else []
  | _, _ => []

/-- DataValidator._calculate_expected_profit: simplified pip-value model with
a fixed 100,000-unit contract size. -/
def calculate_expected_profit (op cp sz : ℚ) (ty : String) (sym : String) : ℚ :=
  let pip_value : ℚ :=
    (if strContains sym "JPY" then (1/100 : ℚ) else 1/10000) / cp * 100000 * sz
  let pips : ℚ :=
    if ty = "buy" then (cp - op) * (if strContains sym "JPY" then 100 else 10000)
    else (op - cp) * (if strContains sym "JPY" then 100 else 10000)
  pips * pip_value

/-- The profit-consistency check. It runs whenever open_price, close_price,
size and type are all present, and then has two uncaught crash paths, in
source evaluation order: first, _calculate_expected_profit reads
trade.get('symbol', ''), which is the stored None for a present-as-None
symbol, and evaluates the membership test "JPY" in None — a TypeError;
second, with the symbol a string but profit None, the caller computes
abs(None − calculated) — also a TypeError. Both abort the whole validation
(modeled as `.error`); otherwise the check can only add a warning. -/
def profit_consistency (i : ℕ) (t : VTrade) : Except String (List String) :=
  match t.open_price, t.close_price, t.size, t.type with
  | some op, some cp, some sz, some ty =>
      match t.symbol with
      | none => .error "TypeError in expected profit calculation"
      | some sym =>
          match t.profit with
          | none => .error "TypeError in profit consistency check"
          | some actual =>
              let calculated := calculate_expected_profit op cp sz ty sym
              let tolerance := |calculated * (1/10)|
              .ok (if max tolerance 1 < |actual - calculated| then
                ["Trade " ++ toString (i+1) ++ ": Profit inconsistency"] else [])
  | _, _, _, _ => .ok []

/-- Python str.isalpha (empty string is not alpha). -/
def pyIsAlpha (s : String) : Bool :=
  !(s.data.isEmpty) && s.data.all Char.isAlpha

/-- Python s.replace("/", "").replace(".", ""). -/
def removeSlashDot (s : String) : String :=
  ⟨s.data.filter (fun c => c ≠ '/' ∧ c ≠ '.')⟩

/-- Symbol-format checks: both produce warnings only, and are skipped when
symbol is absent or empty (Python truthiness). -/
def symbol_warnings (i : ℕ) (t : VTrade) : List String :=
  match t.symbol with
  | some s =>
      if s ≠ "" then
        let su := pyUpper s
        (if su.length < 6 ∨ 8 < su.length then
          ["Trade " ++ toString (i+1) ++ ": Unusual symbol format"] else []) ++
        (if pyIsAlpha (removeSlashDot su) then [] else
          ["Trade " ++ toString (i+1) ++ ": Symbol contains non-alphabetic characters"])
      else []
  | none => []

/-- All per-trade checks of DataValidator._validate_trades for the trade at
0-based index i, assembling (errors, warnings) in source order; `.error`
models the uncaught TypeError of the profit-consistency check. -/
def validate_trade (now : Int) (i : ℕ) (t : VTrade) :
    Except String (List String × List String) :=
  match profit_consistency i t with
  | .error e => .error e
  | .ok consistency_warnings =>
      .ok (required_fields_errors i t ++ type_errors i t ++ (size_checks i t).1 ++
            (price_checks i t).1 ++ close_time_errors i t,
          (size_checks i t).2 ++ (price_checks i t).2 ++ open_time_warnings i now t ++
            consistency_warnings ++ symbol_warnings i t)

/-- The enumerate loop of _validate_trades from index i on: errors and
warnings of every trade are concatenated; a raise aborts everything. -/
def validate_trades_from (now : Int) (i : ℕ) :
    List VTrade → Except String (List String × List String)
  | [] => .ok ([], [])
  | t :: ts =>
      match validate_trade now i t with
      | .error e => .error e
      | .ok (e, w) =>
          match validate_trades_from now (i+1) ts with
          | .error e2 => .error e2
          | .ok (es, ws) => .ok (e ++ es, w ++ ws)

/-- Metadata dict as the validator sees it. date_range is `none` when the
key is absent; an inner `none` stands for a missing/unparseable bound. -/
structure VMetadata where
  source : Option String := none
  total_trades : Option Int := none
  leverage : Option Int := none
  date_range : Option (Option Int × Option Int) := none
deriving DecidableEq, Repr

/-- DataValidator._validate_metadata. -/
def validate_metadata (m : VMetadata) : List String :=
  (if m.source.isNone then ["Missing metadata field source"] else []) ++
  (if m.total_trades.isNone then ["Missing metadata field total_trades"] else []) ++
  (if m.date_range.isNone then ["Missing metadata field date_range"] else []) ++
  (match m.date_range with
   | some (some s, some e) => if e < s then ["date_range start is after end"] else []
   | some (_, _) => ["date_range missing or invalid start or end"]
   | none => []) ++
  (match m.total_trades with
   | some n => if n < 0 then ["total_trades cannot be negative"] else []
   | none => []) ++
  (match m.leverage with
   | some l => if l ≤ 0 then ["leverage must be positive"] else []
   | none => [])

/-- DataValidator._validate_consistency: trade-count match and date-range
match within a one-day tolerance (1440 minutes). -/
def validate_consistency (trades : List VTrade) (m : VMetadata) : List String :=
  (match m.total_trades with
   | some n => if n ≠ (trades.length : ℤ) then
      ["Metadata total_trades doesn't match actual trade count"] else []
   | none => []) ++
  (if trades ≠ [] then
    match m.date_range with
    | some dr =>
        let dates := trades.filterMap (·.open_time) ++ trades.filterMap (·.close_time)
        if dates ≠ [] then
          match dr with
          | (some ms, some me) =>
              (if 1440 < ((dates.min?.getD 0) - ms).natAbs then
                ["Metadata date range start doesn't match actual trade dates"] else []) ++
              (if 1440 < ((dates.max?.getD 0) - me).natAbs then
                ["Metadata date range end doesn't match actual trade dates"] else [])
          | _ => ["Error validating date range consistency"]
        else []
    | none => []
  else [])

/-- The data dict handed to validate_trading_data; `none` marks a missing
top-level key. -/
structure VData where
  trades : Option (List VTrade) := none
  metadata : Option VMetadata := none
deriving DecidableEq, Repr

/-- DataValidator._validate_structure. -/
def validate_structure (d : VData) : List String :=
  (match d.trades with
   | none => ["Missing trades field"]
   | some [] => ["No trades found in data"]
   | some (_ :: _) => []) ++
  (match d.metadata with
   | none => ["Missing metadata field"]
   | some _ => [])

/-- The record returned by validate_trading_data (validation_summary fields
inlined). -/
structure ValidationResult where
  is_valid : Bool
  errors : List String
  warnings : List String
  total_trades : ℕ
  error_count : ℕ
  warning_count : ℕ
deriving DecidableEq, Repr

/-- services/data_validator.py DataValidator.validate_trading_data: structure
check first (fatal for the remaining checks, not for the result), then
per-trade, metadata and consistency checks, with
is_valid = (errors is empty) and warnings kept separate. -/
def validate_trading_data (now : Int) (d : VData) : Except String ValidationResult :=
  let structureErrors := validate_structure d
  let step : Except String (List String × List String) :=
    if structureErrors = [] then
      match validate_trades_from now 0 (d.trades.getD []) with
      | .error e => .error e
      | .ok (tE, tW) =>
          .ok (structureErrors ++ tE ++ validate_metadata (d.metadata.getD {}) ++
            validate_consistency (d.trades.getD []) (d.metadata.getD {}), tW)
    else .ok (structureErrors, [])
  match step with
  | .error e => .error e
  | .ok (errors, warnings) =>
      .ok { is_valid := decide (errors = []), errors := errors, warnings := warnings,
            total_trades := (d.trades.getD []).length,
            error_count := errors.length, warning_count := warnings.length }

/-- A trade whose only defect is the missing required field symbol and whose
other per-trade checks pass without raising (warnings are not excluded).
close_price must be absent: with open_price, close_price, size and type all
present the missing symbol itself makes the profit-consistency check raise
("JPY" in None), so only an open trade can reach the end of its checks. -/
def clean_except_symbol (t : VTrade) : Prop :=
  t.symbol = none ∧ t.ticket.isSome ∧ t.open_time.isSome ∧
  (t.type = some "buy" ∨ t.type = some "sell") ∧
  (∃ s, t.size = some s ∧ min_trade_size ≤ s) ∧
  (∃ p, t.open_price = some p ∧ min_price ≤ p) ∧
  t.close_price = none ∧
  (∀ q, t.stop_loss = some q → min_price ≤ q) ∧
  (∀ q, t.take_profit = some q → min_price ≤ q) ∧
  (∀ ct ot, t.close_time = some ct → t.open_time = some ot → ot ≤ ct) ∧
  t.profit.isSome

/-- A concrete witness trade lacking only the symbol (an open trade: no
close price). -/
def missingSymbolTrade : VTrade :=
  { ticket := some "7", open_time := some 100, close_time := some 160,
    type := some "buy", size := some 1, open_price := some 2,
    profit := some 50 }

/-- A trade lacking only the required field symbol whose close_price is
present: the profit-consistency check runs on it and evaluates
"JPY" in None inside _calculate_expected_profit — an uncaught TypeError. -/
def symbolCrashTrade : VTrade :=
  { ticket := some "7", open_time := some 100, close_time := some 160,
    type := some "buy", size := some 1, open_price := some 2,
    close_price := some 3, profit := some 50 }

/-- A structurally valid dataset whose single trade lacks only the symbol
(all other fields present and valid, close_price included). -/
def crashDataset : VData :=
  { trades := some [symbolCrashTrade],
    metadata := some { source := some "MT5", total_trades := some 1,
                       leverage := some 100, date_range := some (some 0, some 200) } }

end DataValidator

namespace RiskPlugin

/-- pandas Series.mean (the caller guarantees a non-empty series). -/
def sampleMean (xs : List ℚ) : ℚ := xs.sum / xs.length

/-- pandas Series.var with the default ddof = 1; `none` is the NaN produced
for series of length ≤ 1. -/
def sampleVar? (xs : List ℚ) : Option ℚ :=
  if 2 ≤ xs.length then
    some ((xs.map (fun x => (x - sampleMean xs)^2)).sum / ((xs.length : ℚ) - 1))
  else none

/-- pandas Series.std (square root of the ddof = 1 variance); `none` is NaN. -/
noncomputable def sampleStd? (xs : List ℚ) : Option ℝ :=
  (sampleVar? xs).map (fun v => Real.sqrt (v : ℝ))

/-- pandas Series.cumsum. -/
def cumsumFrom (acc : ℚ) : List ℚ → List ℚ
  | [] => []
  | x :: xs => (acc + x) :: cumsumFrom (acc + x) xs

/-- Running cumulative sum of the profit series. -/
def cumsum (xs : List ℚ) : List ℚ := cumsumFrom 0 xs

/-- pandas Series.cummax (helper carrying the running maximum). -/
def cummaxFrom (m : ℚ) : List ℚ → List ℚ
  | [] => []
  | x :: xs => (max m x) :: cummaxFrom (max m x) xs

/-- pandas Series.cummax. -/
def cummax : List ℚ → List ℚ
  | [] => []
  | x :: xs => x :: cummaxFrom x xs

/-- abs(drawdown.min()) over the equity curve, as in the risk plugin's
Calmar computation (and the analysis engine's twin code). -/
def max_drawdown (xs : List ℚ) : ℚ :=
  |(List.zipWith (fun a b => a - b) (cumsum xs) (cummax (cumsum xs))).min?.getD 0|

/-- The downside deviation of the plugin's Sortino computation: std of the
negative returns when any exist, else the int 0 (never NaN in that case). -/
noncomputable def downside_deviation? (xs : List ℚ) : Option ℝ :=
  if 0 < (xs.filter (fun x => x < 0)).length then sampleStd? (xs.filter (fun x => x < 0))
  else some 0

/-- Result of _calculate_risk_adjusted_returns; `none` fields are NaN
outcomes (a NaN denominator passes the `!= 0` test and poisons the ratio). -/
structure RiskAdjusted where
  sharpe_ratio : Option ℝ
  sortino_ratio : Option ℝ
  calmar_ratio : ℚ
  information_ratio : Option ℝ
  max_drawdown_value : ℚ
  excess_return_mean : ℚ

/-- src/plugins/analysis-plugins/risk-assessment-plugin/plugin.py
Plugin._calculate_risk_adjusted_returns: each ratio is the sentinel 0 when
its denominator is 0; a NaN denominator (possible for a single losing trade)
passes the Python `!= 0` test and yields NaN. rfr is the configured
risk_free_rate, divided by 252 as in the source. -/
noncomputable def calculate_risk_adjusted_returns (rfr : ℚ) (xs : List ℚ) : RiskAdjusted :=
  let excess_mean : ℚ := sampleMean (xs.map (fun x => x - rfr/252))
  let sharpe : Option ℝ :=
    match sampleStd? xs with
    | some s => if s ≠ 0 then some ((excess_mean : ℝ) / s) else some 0
    | none => none
  let sortino : Option ℝ :=
    match downside_deviation? xs with
    | some d => if d ≠ 0 then some ((excess_mean : ℝ) / d) else some 0
    | none => none
  let calmar : ℚ :=
    if max_drawdown xs ≠ 0 then sampleMean xs / max_drawdown xs else 0
  let information : Option ℝ :=
    match sampleStd? xs with
    | some t => if t ≠ 0 then some (((sampleMean xs - 0 : ℚ) : ℝ) / t) else some 0
    | none => none
  { sharpe_ratio := sharpe, sortino_ratio := sortino, calmar_ratio := calmar,
    information_ratio := information, max_drawdown_value := max_drawdown xs,
    excess_return_mean := excess_mean }

/-- Plugin default monte_carlo_simulations from __init__. -/
def defaultMonteCarloSimulations : ℕ := 10000

/-- One step of the stand-in pseudo-random stream. -/
def lcgStep (state : ℕ) : ℕ := (state * 1103515245 + 12345) % 2147483648

/-- Model of numpy's seeded global normal sampler: after np.random.seed the
draw np.random.normal(mean, std, n) is a pure function of (seed, mean, std,
n) returning exactly n samples; the concrete linear-congruential stream
stands in for the Mersenne-Twister Gaussian stream, whose distributional
(i.i.d. normal) properties are numpy's contract and are not modeled. -/
noncomputable def npNormalSamples (seed : ℕ) (mean std : ℝ) (n : ℕ) : List ℝ :=
  (List.range n).map (fun i =>
    mean + std * (((lcgStep^[i+1] seed % 4001 : ℕ) : ℝ) / 2000 - 1))

/-- Arithmetic mean of real samples. -/
noncomputable def meanR (xs : List ℝ) : ℝ := xs.sum / xs.length

/-- np.percentile with the default linear interpolation on the sorted
samples. -/
noncomputable def npPercentile (xs : List ℝ) (p : ℚ) : ℝ :=
  let sorted := xs.mergeSort (fun a b => decide (a ≤ b))
  let h : ℚ := p / 100 * ((xs.length : ℚ) - 1)
  match sorted[(⌊h⌋).toNat]?, sorted[(⌈h⌉).toNat]? with
  | some xlo, some xhi => xlo + ((h - ⌊h⌋ : ℚ) : ℝ) * (xhi - xlo)
  | _, _ => 0

/-- Result record of Plugin._monte_carlo_simulation. -/
structure MonteCarloResult where
  simulations : ℕ
  probability_of_loss : ℝ
  probability_of_profit : ℝ
  expected_loss : ℝ
  expected_profit : ℝ
  percentiles : List (ℕ × ℝ)
  worst_case_1pct : ℝ
  best_case_1pct : ℝ

/-- src/plugins/analysis-plugins/risk-assessment-plugin/plugin.py
Plugin._monte_carlo_simulation as a transformer of the global generator
state: np.random.seed(42) discards the incoming state, so the result depends
only on the profit series and the sample count. The caller guard
(len ≥ 10) excludes the NaN std case, so the variance default 0 in the std
below is unreachable. -/
noncomputable def monte_carlo_simulation (profits : List ℚ) (nSims : ℕ) (rng : ℕ) :
    MonteCarloResult × ℕ :=
  let seeded : ℕ := 42
  let mean : ℝ := ((sampleMean profits : ℚ) : ℝ)
  let std : ℝ := Real.sqrt (((sampleVar? profits).getD 0 : ℚ) : ℝ)
  let samples := npNormalSamples seeded mean std nSims
  let negatives := samples.filter (fun x => decide (x < 0))
  let positives := samples.filter (fun x => decide (0 < x))
  ({ simulations := nSims
     probability_of_loss := (negatives.length : ℝ) / nSims
     probability_of_profit := (positives.length : ℝ) / nSims
     expected_loss := if negatives ≠ [] then meanR negatives else 0
     expected_profit := if positives ≠ [] then meanR positives else 0
     percentiles := [1, 5, 10, 25, 50, 75, 90, 95, 99].map
       (fun p => (p, npPercentile samples (p : ℚ)))
     worst_case_1pct := npPercentile samples 1
     best_case_1pct := npPercentile samples 99 },
   lcgStep^[nSims] seeded)

end RiskPlugin

namespace MLPipeline

/-- A fitted sklearn LabelEncoder: its classes_ array (sorted unique
values). -/
structure LabelEncoder where
  classes : List String
deriving DecidableEq, Repr

/-- LabelEncoder.fit: classes_ = sorted unique values of the column. -/
def fitLabelEncoder (values : List String) : LabelEncoder :=
  ⟨List.insertionSort (fun a b => a ≤ b) values.dedup⟩

/-- LabelEncoder.transform of one value: its index in classes_. -/
def transform (e : LabelEncoder) (v : String) : ℕ := e.classes.indexOf v

/-- The mutable instance state of MLPipeline (__init__: scalers, encoders and
models all start empty). A scaler is its fitted per-feature (means,
variances). -/
structure MLState where
  scalers : List (String × (List ℚ × List ℚ)) := []
  encoders : List (String × LabelEncoder) := []
  models : List String := []
deriving DecidableEq, Repr

/-- The pipeline state right after __init__. -/
def initState : MLState := {}

/-- One feature row of _prepare_features (fillna(0) built into the typed
fields). -/
structure FeatureRow where
  profit : ℚ
  hour : ℕ
  day_of_week : String
  size : ℚ
  duration_minutes : ℚ
  pips : ℚ
  session : String
  symbol : String
  type : String
  commission : ℚ
  swap : ℚ
  day_of_week_encoded : ℕ := 0
  session_encoded : ℕ := 0
  symbol_encoded : ℕ := 0
  type_encoded : ℕ := 0
deriving DecidableEq, Repr

/-- pandas day_name() of a minutes-since-epoch instant (1970-01-01 was a
Thursday; non-negative instants assumed). -/
def dayName (m : Int) : String :=
  ["Thursday", "Friday", "Saturday", "Sunday", "Monday", "Tuesday", "Wednesday"].getD
    (((m / 1440) % 7).toNat) "Thursday"

/-- TradeType rendered as its string value. -/
def trade_type_str : TradeType → String
  | .buy => "buy"
  | .sell => "sell"

/-- One row of the feature frame built by _prepare_features: hour and
day name from open_time, duration from the time delta (0 for open trades),
pips from the trade's pips field (`or 0`), session from the local session
table. -/
def mkFeatureRow (t : Trade) : FeatureRow :=
  let hour := ((t.open_time / 60) % 24).toNat
  { profit := t.profit
    hour := hour
    day_of_week := dayName t.open_time
    size := t.size
    duration_minutes :=
      match t.close_time with
      | some ct => ((ct - t.open_time : ℤ) : ℚ)
      | none => 0
    pips := t.pips.getD 0
    session := get_trading_session hour
    symbol := t.symbol
    type := trade_type_str t.type
    commission := t.commission
    swap := t.swap }

/-- The four encoders fitted by one _prepare_features call, from that call's
own rows only. -/
def fitEncoders (rows : List FeatureRow) : List (String × LabelEncoder) :=
  [("day_of_week", fitLabelEncoder (rows.map (·.day_of_week))),
   ("session", fitLabelEncoder (rows.map (·.session))),
   ("symbol", fitLabelEncoder (rows.map (·.symbol))),
   ("type", fitLabelEncoder (rows.map (·.type)))]

/-- services/ml_pipeline.py MLPipeline._prepare_features as a transformer of
the pipeline instance state: builds the feature rows, fits fresh encoders on
this call's columns, encodes the categorical columns, and OVERWRITES
self.encoders with the fresh encoders (the empty-frame early return leaves
the state untouched). -/
def prepare_features (trades : List Trade) (st : MLState) :
    List FeatureRow × MLState :=
  let rows := trades.map mkFeatureRow
  if rows.isEmpty then (rows, st)
  else
    let encs := fitEncoders rows
    let le_day := fitLabelEncoder (rows.map (·.day_of_week))
    let le_session := fitLabelEncoder (rows.map (·.session))
    let le_symbol := fitLabelEncoder (rows.map (·.symbol))
    let le_type := fitLabelEncoder (rows.map (·.type))
    (rows.map (fun r =>
      { r with day_of_week_encoded := transform le_day r.day_of_week
               session_encoded := transform le_session r.session
               symbol_encoded := transform le_symbol r.symbol
               type_encoded := transform le_type r.type }),
     { st with encoders := encs })

/-- Population mean of a feature column (StandardScaler, ddof = 0). -/
def columnMean (xs : List ℚ) : ℚ := xs.sum / xs.length

/-- Population variance of a feature column (StandardScaler, ddof = 0). -/
def columnVar (xs : List ℚ) : ℚ :=
  (xs.map (fun x => (x - columnMean xs)^2)).sum / xs.length

/-- StandardScaler.fit over the clustering feature matrix (the
feature_columns order of MLPipeline). -/
def scaler_fit (rows : List FeatureRow) : List ℚ × List ℚ :=
  let cols : List (List ℚ) :=
    [rows.map (fun r => (r.hour : ℚ)),
     rows.map (fun r => (r.day_of_week_encoded : ℚ)),
     rows.map (·.size),
     rows.map (·.duration_minutes),
     rows.map (·.pips),
     rows.map (fun r => (r.session_encoded : ℚ)),
     rows.map (fun r => (r.symbol_encoded : ℚ))]
  (cols.map columnMean, cols.map columnVar)

/-- The state mutation of MLPipeline._run_kmeans_clustering: the scaler
fitted on this call's matrix is stored under the shared key "clustering"
(self.scalers['clustering'] = scaler). -/
def kmeans_scaler_update (rows : List FeatureRow) (st : MLState) : MLState :=
  { st with scalers :=
      st.scalers.filter (fun p => p.1 ≠ "clustering") ++ [("clustering", scaler_fit rows)] }

/-- A one-trade input for the mutation counterexample. -/
def mlSampleTrade : Trade :=
  { ticket := "1", open_time := 600, type := .buy, size := 1,
    symbol := "EURUSD", open_price := 2, profit := 5 }

end MLPipeline

theorem sum_lt_zero_of_forall_neg {l : List ℚ} (h : ∀ x ∈ l, x < 0) (hne : l ≠ []) :
    l.sum < 0 := by
  induction l with
  | nil => exact absurd rfl hne
  | cons a t ih =>
    have ha := h a (List.mem_cons_self a t)
    rcases eq_or_ne t [] with rfl | ht
    · simpa using ha
    · have := ih (fun x hx => h x (List.mem_cons_of_mem _ hx)) ht
      simp only [List.sum_cons]
      linarith

theorem filter_neg_sum_eq_zero_iff (l : List ℚ) :
    ((l.filter (fun p => p < 0)).sum = 0) ↔ l.filter (fun p => p < 0) = [] := by
  constructor
  · intro hsum
    by_contra hne
    have hn : (l.filter (fun p => p < 0)).sum < 0 := by
      refine sum_lt_zero_of_forall_neg (fun x hx => ?_) hne
      have := List.of_mem_filter hx
      simpa using this
    exact absurd hsum (ne_of_lt hn)
  · intro h
    rw [h]
    rfl

theorem length_filter_tri (l : List ℚ) :
    (l.filter (fun p => 0 < p)).length + (l.filter (fun p => p < 0)).length +
      (l.filter (fun p => p = 0)).length = l.length := by
  induction l with
  | nil => rfl
  | cons a t ih =>
    simp only [List.filter_cons, decide_eq_true_eq]
    rcases lt_trichotomy a 0 with h | h | h
    · rw [if_neg (not_lt.mpr h.le), if_pos h, if_neg (ne_of_lt h)]
      simp only [List.length_cons]
      omega
    · subst h
      rw [if_neg (lt_irrefl 0), if_neg (lt_irrefl 0), if_pos rfl]
      simp only [List.length_cons]
      omega
    · rw [if_pos h, if_neg (not_lt.mpr h.le), if_neg (ne_of_gt h)]
      simp only [List.length_cons]
      omega

/-- Concrete evaluation of get_summary_stats on the spec's 3-trade scenario. -/
theorem get_summary_stats_scenario :
    get_summary_stats scenarioTrades = some {
      total_trades := 3, winning_trades := 2, losing_trades := 1,
      win_rate := 2/3, total_profit := 45, average_win := 95/2,
      average_loss := -50, profit_factor := .val (19/10),
      largest_win := 50, largest_loss := -50 } := by
  have hne : scenarioTrades ≠ [] := by decide
  simp only [get_summary_stats, if_neg hne, scenarioTrades]
  norm_num [List.filter, List.max?, List.min?, List.foldl, max_def, min_def]
  exact ⟨hne, by decide⟩

/-- C1: for every non-empty trade list, get_summary_stats computes
profit_factor = |sum of winning profits / sum of losing profits|, with the
+inf sentinel exactly when the sum of losing profits is zero; in particular
all-winning data yields the sentinel, and the spec's 3-trade scenario yields
profit_factor = 1.9. -/
theorem profit_factor_formula (trades : List Trade) (h : trades ≠ []) :
    ((get_summary_stats trades).map (fun s => s.profit_factor) =
      some (if ((trades.map (·.profit)).filter (fun p => p < 0)).sum = 0 then PyFloat.inf
        else PyFloat.val
          (|((trades.map (·.profit)).filter (fun p => 0 < p)).sum /
            ((trades.map (·.profit)).filter (fun p => p < 0)).sum|))) ∧
    ((∀ t ∈ trades, 0 < t.profit) →
      (get_summary_stats trades).map (fun s => s.profit_factor) = some PyFloat.inf) ∧
    (get_summary_stats scenarioTrades).map (fun s => s.profit_factor) =
      some (PyFloat.val (19/10)) := by
  refine ⟨?_, ?_, ?_⟩
  · by_cases hl : (trades.map (·.profit)).filter (fun p => p < 0) = []
    · have hs : ((trades.map (·.profit)).filter (fun p => p < 0)).sum = 0 := by
        rw [hl]; rfl
      simp [get_summary_stats, h, hl, hs]
    · have hs : ((trades.map (·.profit)).filter (fun p => p < 0)).sum ≠ 0 :=
        fun hc => hl ((filter_neg_sum_eq_zero_iff _).mp hc)
      simp [get_summary_stats, h, hl, hs]
  · intro hw
    have hl : (trades.map (·.profit)).filter (fun p => p < 0) = [] := by
      refine List.filter_eq_nil_iff.mpr (fun a ha => ?_)
      obtain ⟨t, ht, rfl⟩ := List.mem_map.mp ha
      simpa using not_lt.mpr (hw t ht).le
    simp [get_summary_stats, h, hl]
  · rw [get_summary_stats_scenario]
    rfl

theorem profit_factor_formula_witness :
    (get_summary_stats scenarioTrades).map (fun s => s.profit_factor) =
      some (PyFloat.val (19/10)) :=
  (profit_factor_formula scenarioTrades (by decide)).2.2

/-- C5 counterexample: on the spec's own 3-trade scenario the computed
win_rate is exactly 2/3, which is not the claimed value 0.667. -/
theorem win_rate_scenario_counterexample :
    (get_summary_stats scenarioTrades).map (fun s => s.win_rate) = some (2/3) ∧
      (2 : ℚ)/3 ≠ 667/1000 := by
  constructor
  · rw [get_summary_stats_scenario]
    rfl
  · norm_num

/-- C5 (amended): for every non-empty dataset 0 ≤ win_rate ≤ 1 and
winning_trades + losing_trades ≤ total_trades, zero-profit trades counted in
neither group; the spec's 3-trade scenario reports win_rate = 2/3, which is
0.667 only after rounding to three decimal places. -/
theorem win_rate_bounds (trades : List Trade) (h : trades ≠ []) :
    ∃ s, get_summary_stats trades = some s ∧
      0 ≤ s.win_rate ∧ s.win_rate ≤ 1 ∧
      s.winning_trades + s.losing_trades ≤ s.total_trades ∧
      s.winning_trades + s.losing_trades
          + ((trades.map (·.profit)).filter (fun p => p = 0)).length = s.total_trades ∧
      (get_summary_stats scenarioTrades).map (fun s => s.win_rate) = some (2/3) := by
  have hlen : 0 < trades.length := List.length_pos.mpr h
  have hwin : ((trades.map (·.profit)).filter (fun p => 0 < p)).length ≤ trades.length := by
    calc ((trades.map (·.profit)).filter (fun p => 0 < p)).length
        ≤ (trades.map (·.profit)).length := List.length_filter_le _ _
      _ = trades.length := List.length_map _ _
  refine ⟨_, by rw [get_summary_stats, if_neg h], ?_, ?_, ?_, ?_,
    by rw [get_summary_stats_scenario]; rfl⟩
  · dsimp only
    positivity
  · dsimp only
    rw [div_le_one (by exact_mod_cast hlen)]
    exact_mod_cast hwin
  · dsimp only
    have := length_filter_tri (trades.map (·.profit))
    simp only [List.length_map] at this
    omega
  · dsimp only
    have := length_filter_tri (trades.map (·.profit))
    simp only [List.length_map] at this
    omega

theorem win_rate_bounds_witness :
    ∃ s, get_summary_stats scenarioTrades = some s ∧
      0 ≤ s.win_rate ∧ s.win_rate ≤ 1 ∧
      s.winning_trades + s.losing_trades ≤ s.total_trades ∧
      s.winning_trades + s.losing_trades
          + ((scenarioTrades.map (·.profit)).filter (fun p => p = 0)).length
          = s.total_trades ∧
      (get_summary_stats scenarioTrades).map (fun s => s.win_rate) = some (2/3) :=
  win_rate_bounds scenarioTrades (by decide)

/-- C2: with close_price present (and positive, per the model invariant),
pips = (close − open) × multiplier for buy and (open − close) × multiplier
for sell, multiplier 100 iff the symbol contains JPY or HUF else 10000;
pips is left at the prior value when close_price is absent, and the pip-sign
invariant holds: buy pips > 0 ↔ close > open, sell pips > 0 ↔ close < open. -/
theorem pips_spec (v : Option ℚ) (symbol : String) (op cp : ℚ) (hcp : 0 < cp) :
    (calculate_pips v symbol op (some cp) .buy =
      some ((cp - op) *
        (if strContains symbol "JPY" || strContains symbol "HUF" then 100 else 10000))) ∧
    (calculate_pips v symbol op (some cp) .sell =
      some ((op - cp) *
        (if strContains symbol "JPY" || strContains symbol "HUF" then 100 else 10000))) ∧
    (∀ ty, calculate_pips v symbol op none ty = v) ∧
    (∃ p, calculate_pips v symbol op (some cp) .buy = some p ∧ (0 < p ↔ op < cp)) ∧
    (∃ p, calculate_pips v symbol op (some cp) .sell = some p ∧ (0 < p ↔ cp < op)) := by
  have hne : cp ≠ 0 := ne_of_gt hcp
  have hm : (0:ℚ) <
      (if strContains symbol "JPY" || strContains symbol "HUF" then 100 else 10000) := by
    split <;> norm_num
  have hbuy : calculate_pips v symbol op (some cp) .buy =
      some ((cp - op) *
        (if strContains symbol "JPY" || strContains symbol "HUF" then 100 else 10000)) := by
    simp only [calculate_pips]
    rw [if_neg hne]
  have hsell : calculate_pips v symbol op (some cp) .sell =
      some ((op - cp) *
        (if strContains symbol "JPY" || strContains symbol "HUF" then 100 else 10000)) := by
    simp only [calculate_pips]
    rw [if_neg hne]
  refine ⟨hbuy, hsell, fun ty => rfl, ⟨_, hbuy, ?_⟩, ⟨_, hsell, ?_⟩⟩
  · constructor <;> intro h' <;> nlinarith [hm]
  · constructor <;> intro h' <;> nlinarith [hm]

theorem pips_spec_witness :
    calculate_pips none "USDJPY" 110 (some (221/2)) TradeType.buy =
      some ((221/2 - 110) *
        (if strContains "USDJPY" "JPY" || strContains "USDJPY" "HUF"
          then 100 else 10000)) :=
  (pips_spec none "USDJPY" 110 (221/2) (by norm_num)).1

/-- C6: both _get_trading_session implementations (analysis engine and ML
pipeline) assign every hour 0–23 to the first session in the fixed
enumeration order Sydney, Tokyo, London, New York whose window contains it,
defaulting to "Other"; hour 22 is always assigned to Sydney, never Tokyo. -/
theorem session_assignment (h : ℕ) (hh : h < 24) :
    AnalysisEngine.get_trading_session h = specFirstSession h ∧
    MLPipeline.get_trading_session h = specFirstSession h ∧
    AnalysisEngine.get_trading_session 22 = "Sydney" ∧
    MLPipeline.get_trading_session 22 = "Sydney" ∧
    "Sydney" ≠ "Tokyo" := by
  have key : ∀ n, n < 24 → AnalysisEngine.get_trading_session n = specFirstSession n ∧
      MLPipeline.get_trading_session n = specFirstSession n := by decide
  exact ⟨(key h hh).1, (key h hh).2, by decide, by decide, by decide⟩

theorem session_assignment_witness :
    AnalysisEngine.get_trading_session 22 = specFirstSession 22 ∧
    MLPipeline.get_trading_session 22 = specFirstSession 22 ∧
    AnalysisEngine.get_trading_session 22 = "Sydney" ∧
    MLPipeline.get_trading_session 22 = "Sydney" ∧
    "Sydney" ≠ "Tokyo" :=
  session_assignment 22 (by norm_num)

theorem validate_trade_missing_symbol (now : Int) (i : ℕ) (t : DataValidator.VTrade)
    (h : DataValidator.clean_except_symbol t) :
    ∃ w, DataValidator.validate_trade now i t =
      .ok ([DataValidator.missing_msg i "symbol"], w) := by
  obtain ⟨hsym, htk, hot, hty, ⟨s, hs, hsmin⟩, ⟨p, hp, hpmin⟩, hcpn, hsl, htp, hctle, hpf⟩ := h
  obtain ⟨tk, htk'⟩ := Option.isSome_iff_exists.mp htk
  obtain ⟨ot, hot'⟩ := Option.isSome_iff_exists.mp hot
  obtain ⟨pf, hpf'⟩ := Option.isSome_iff_exists.mp hpf
  have hreq : DataValidator.required_fields_errors i t =
      [DataValidator.missing_msg i "symbol"] := by
    rcases hty with hty | hty <;>
      simp [DataValidator.required_fields_errors, htk', hot', hty, hs, hsym, hp, hpf']
  have htype : DataValidator.type_errors i t = [] := by
    simp [DataValidator.type_errors, hty]
  have hsize1 : (DataValidator.size_checks i t).1 = [] := by
    simp only [DataValidator.size_checks, hs]
    rw [if_neg (not_lt.mpr hsmin)]
    split <;> rfl
  have copen : (DataValidator.price_check i "open_price" t.open_price).1 = [] := by
    simp only [DataValidator.price_check, hp]
    rw [if_neg (not_lt.mpr hpmin)]
    split <;> rfl
  have cclose : (DataValidator.price_check i "close_price" t.close_price).1 = [] := by
    simp [DataValidator.price_check, hcpn]
  have csl : (DataValidator.price_check i "stop_loss" t.stop_loss).1 = [] := by
    cases hq : t.stop_loss with
    | none => simp [DataValidator.price_check]
    | some q =>
        simp only [DataValidator.price_check]
        rw [if_neg (not_lt.mpr (hsl q hq))]
        split <;> rfl
  have ctp : (DataValidator.price_check i "take_profit" t.take_profit).1 = [] := by
    cases hq : t.take_profit with
    | none => simp [DataValidator.price_check]
    | some q =>
        simp only [DataValidator.price_check]
        rw [if_neg (not_lt.mpr (htp q hq))]
        split <;> rfl
  have hprice1 : (DataValidator.price_checks i t).1 = [] := by
    simp [DataValidator.price_checks, copen, cclose, csl, ctp]
  have hct0 : DataValidator.close_time_errors i t = [] := by
    cases hq : t.close_time with
    | none => simp [DataValidator.close_time_errors, hq]
    | some ct =>
        simp only [DataValidator.close_time_errors, hq, hot']
        rw [if_neg (not_lt.mpr (hctle ct ot hq hot'))]
  have hcw : DataValidator.profit_consistency i t = .ok [] := by
    unfold DataValidator.profit_consistency
    rcases hty with hty | hty <;> rw [hp, hcpn, hs, hty]
  refine ⟨(DataValidator.size_checks i t).2 ++ (DataValidator.price_checks i t).2 ++
    DataValidator.open_time_warnings i now t ++ [] ++
    DataValidator.symbol_warnings i t, ?_⟩
  simp [DataValidator.validate_trade, hcw, hreq, htype, hsize1, hprice1, hct0]

theorem validate_trades_from_append (now : Int) (j : ℕ)
    (l1 l2 : List DataValidator.VTrade) :
    DataValidator.validate_trades_from now j (l1 ++ l2) =
      match DataValidator.validate_trades_from now j l1 with
      | .error e => .error e
      | .ok (e1, w1) =>
          match DataValidator.validate_trades_from now (j + l1.length) l2 with
          | .error e => .error e
          | .ok (e2, w2) => .ok (e1 ++ e2, w1 ++ w2) := by
  induction l1 generalizing j with
  | nil =>
      cases hv : DataValidator.validate_trades_from now j l2 with
      | error e => simp [DataValidator.validate_trades_from, hv]
      | ok pr => simp [DataValidator.validate_trades_from, hv]
  | cons t ts ih =>
      have hidx : j + (ts.length + 1) = (j + 1) + ts.length := by omega
      simp only [List.cons_append, DataValidator.validate_trades_from, List.length_cons, hidx]
      cases hv : DataValidator.validate_trade now j t with
      | error e => rfl
      | ok pr =>
          obtain ⟨e, w⟩ := pr
          simp only [List.append_eq]
          rw [ih (j+1)]
          cases hv2 : DataValidator.validate_trades_from now (j+1) ts with
          | error e2 => rfl
          | ok pr2 =>
              obtain ⟨es, ws⟩ := pr2
              cases hv3 : DataValidator.validate_trades_from now (j + 1 + ts.length) l2 with
              | error e3 => rfl
              | ok pr3 =>
                  obtain ⟨e2, w2⟩ := pr3
                  simp [List.append_assoc]

/-- The witness trade satisfies every per-trade check except the missing
symbol. -/
theorem missingSymbolTrade_clean :
    DataValidator.clean_except_symbol DataValidator.missingSymbolTrade := by
  refine ⟨rfl, rfl, rfl, Or.inl rfl, ⟨1, rfl, by norm_num [DataValidator.min_trade_size]⟩,
    ⟨2, rfl, by norm_num [DataValidator.min_price]⟩, rfl, ?_, ?_, ?_, rfl⟩
  · intro q hq
    simp [DataValidator.missingSymbolTrade] at hq
  · intro q hq
    simp [DataValidator.missingSymbolTrade] at hq
  · intro ct ot hct hot
    simp only [DataValidator.missingSymbolTrade, Option.some.injEq] at hct hot
    omega

/-- C3 counterexample: a structurally valid dataset whose single trade lacks
only the required field symbol (every other field present and valid,
close_price included) does not get one missing-symbol error back — the
profit-consistency check runs on that very trade, _calculate_expected_profit
evaluates "JPY" in None on its stored None symbol, and the uncaught
TypeError aborts validation, so no error list is ever returned. -/
theorem validator_crash_counterexample :
    DataValidator.validate_structure DataValidator.crashDataset = [] ∧
    DataValidator.symbolCrashTrade.symbol = none ∧
    DataValidator.symbolCrashTrade.ticket.isSome = true ∧
    DataValidator.symbolCrashTrade.open_time.isSome = true ∧
    DataValidator.symbolCrashTrade.type = some "buy" ∧
    DataValidator.symbolCrashTrade.size = some 1 ∧
    DataValidator.symbolCrashTrade.open_price = some 2 ∧
    DataValidator.symbolCrashTrade.close_price = some 3 ∧
    DataValidator.symbolCrashTrade.profit.isSome = true ∧
    DataValidator.crashDataset.trades = some [DataValidator.symbolCrashTrade] ∧
    DataValidator.validate_trading_data 10000 DataValidator.crashDataset =
      .error "TypeError in expected profit calculation" :=
  ⟨rfl, rfl, rfl, rfl, rfl, rfl, rfl, rfl, rfl, rfl, rfl⟩

/-- C3 (amended): in a structurally valid dataset whose trade at some
position lacks only the required field symbol AND has no close_price (with
close_price present, the missing symbol itself makes the profit-consistency
check raise "JPY" in None — see the counterexample), and whose remaining
trades' per-trade checks complete without raising (no other trade with
open_price, close_price, size and type present has a None symbol or None
profit), that trade contributes exactly one error — the missing-field error
naming symbol — the checks of all trades before and after it still run and
their errors are all collected, and every returned result has
is_valid = (errors list is empty), warnings never affecting validity. -/
theorem validator_missing_symbol (now : Int) (t : DataValidator.VTrade)
    (h : DataValidator.clean_except_symbol t)
    (pre post : List DataValidator.VTrade) (ep wp eq2 wq : List String)
    (hpre : DataValidator.validate_trades_from now 0 pre = .ok (ep, wp))
    (hpost : DataValidator.validate_trades_from now (pre.length + 1) post = .ok (eq2, wq)) :
    (∃ w, DataValidator.validate_trade now pre.length t =
      .ok ([DataValidator.missing_msg pre.length "symbol"], w)) ∧
    (∃ w, DataValidator.validate_trades_from now 0 (pre ++ t :: post) =
      .ok (ep ++ DataValidator.missing_msg pre.length "symbol" :: eq2, w)) ∧
    (∀ d r, DataValidator.validate_trading_data now d = .ok r →
      (r.is_valid = true ↔ r.errors = [])) := by
  obtain ⟨w, hw⟩ := validate_trade_missing_symbol now pre.length t h
  refine ⟨⟨w, hw⟩, ⟨wp ++ (w ++ wq), ?_⟩, ?_⟩
  · rw [validate_trades_from_append now 0 pre (t :: post), hpre]
    have h0 : 0 + pre.length = pre.length := by omega
    rw [h0]
    simp only [DataValidator.validate_trades_from, hw, hpost, List.singleton_append]
  · intro d r hr
    simp only [DataValidator.validate_trading_data] at hr
    by_cases hst : DataValidator.validate_structure d = []
    · rw [if_pos hst] at hr
      cases hv : DataValidator.validate_trades_from now 0 (d.trades.getD []) with
      | error e => rw [hv] at hr; exact absurd hr (by simp)
      | ok pr =>
          obtain ⟨tE, tW⟩ := pr
          rw [hv] at hr
          simp only [Except.ok.injEq] at hr
          subst hr
          simp
    · rw [if_neg hst] at hr
      simp only [Except.ok.injEq] at hr
      subst hr
      simp

theorem validator_missing_symbol_witness :
    DataValidator.clean_except_symbol DataValidator.missingSymbolTrade ∧
    ((∃ w, DataValidator.validate_trade 10000 0 DataValidator.missingSymbolTrade =
      .ok ([DataValidator.missing_msg 0 "symbol"], w)) ∧
    (∃ w, DataValidator.validate_trades_from 10000 0
        ([] ++ DataValidator.missingSymbolTrade :: []) =
      .ok ([] ++ DataValidator.missing_msg 0 "symbol" :: [], w)) ∧
    (∀ d r, DataValidator.validate_trading_data 10000 d = .ok r →
      (r.is_valid = true ↔ r.errors = []))) := by
  exact ⟨missingSymbolTrade_clean,
    validator_missing_symbol 10000 DataValidator.missingSymbolTrade
      missingSymbolTrade_clean [] [] [] [] [] [] rfl rfl⟩

/-- C4 counterexample: a header set exposing 4 of the 5 MT5 indicator headers
is detected as "Generic", not MT5 — so the fuzzy fallback is taken even
though 4 ≥ 3 indicator columns match, contradicting the claimed
largest-intersection scoring with a ≥3 threshold. -/
theorem detect_source_counterexample :
    DataProcessor.detect_source DataProcessor.mt5PartialHeaders = "Generic" ∧
    "Generic" ≠ "MT5" ∧
    (DataProcessor.mt5_indicators.filter
      (fun c => DataProcessor.mt5PartialHeaders.contains c)).length = 4 ∧
    DataProcessor.choose_mapping DataProcessor.mt5PartialHeaders "auto" =
      DataProcessor.auto_map_columns DataProcessor.mt5PartialHeaders := by
  refine ⟨by decide, by decide, by decide, by decide⟩

/-- C4 (amended): with a declared source of auto, a platform is selected only
when its complete indicator-header set is a subset of the present headers,
tested in the fixed priority order MT5 then MT4; the fuzzy keyword-based
column mapping is used exactly when neither complete indicator set is
present (a partial match, however large, falls through). -/
theorem detect_source_amended (cols : List String) :
    (DataProcessor.detect_source cols = "MT5" ↔
      DataProcessor.subsetOf DataProcessor.mt5_indicators cols = true) ∧
    (DataProcessor.detect_source cols = "MT4" ↔
      (DataProcessor.subsetOf DataProcessor.mt5_indicators cols = false ∧
        DataProcessor.subsetOf DataProcessor.mt4_indicators cols = true)) ∧
    (DataProcessor.detect_source cols = "Generic" ↔
      (DataProcessor.subsetOf DataProcessor.mt5_indicators cols = false ∧
        DataProcessor.subsetOf DataProcessor.mt4_indicators cols = false)) ∧
    DataProcessor.choose_mapping cols "auto" =
      (if DataProcessor.subsetOf DataProcessor.mt5_indicators cols then
        DataProcessor.mt5_columns
      else if DataProcessor.subsetOf DataProcessor.mt4_indicators cols then
        DataProcessor.mt4_columns
      else DataProcessor.auto_map_columns cols) := by
  by_cases h5 : DataProcessor.subsetOf DataProcessor.mt5_indicators cols = true
  · simp +decide [DataProcessor.detect_source, DataProcessor.choose_mapping, h5]
  · by_cases h4 : DataProcessor.subsetOf DataProcessor.mt4_indicators cols = true
    · simp +decide [DataProcessor.detect_source, DataProcessor.choose_mapping, h5, h4]
    · simp +decide [DataProcessor.detect_source, DataProcessor.choose_mapping, h5, h4]

/-- calculate_additional_fields only writes the derived fields; the identity
and filter-relevant fields pass through unchanged. -/
theorem calculate_additional_fields_preserves (r : DataProcessor.RawRow) :
    (DataProcessor.calculate_additional_fields r).ticket = r.ticket ∧
    (DataProcessor.calculate_additional_fields r).open_time = r.open_time ∧
    (DataProcessor.calculate_additional_fields r).type = r.type ∧
    (DataProcessor.calculate_additional_fields r).size = r.size ∧
    (DataProcessor.calculate_additional_fields r).symbol = r.symbol ∧
    (DataProcessor.calculate_additional_fields r).open_price = r.open_price := by
  unfold DataProcessor.calculate_additional_fields
  dsimp only
  repeat' split
  all_goals exact ⟨rfl, rfl, rfl, rfl, rfl, rfl⟩

/-- C10: every trade retained by the cleaning pipeline has type buy or sell,
positive size and open price, and present ticket, open_time and symbol;
rows failing these checks are silently dropped (the pipeline's result has no
error channel); the retained list is sorted ascending by open_time; and
metadata.total_trades counts the retained trades, not the input rows. -/
theorem process_file_invariants (rows : List DataProcessor.RawRow)
    (source filename : String) (r : DataProcessor.RawRow)
    (hr : r ∈ (DataProcessor.processTrades rows source filename).1) :
    (r.type = some "buy" ∨ r.type = some "sell") ∧
    (∃ q, r.size = some q ∧ 0 < q) ∧
    (∃ q, r.open_price = some q ∧ 0 < q) ∧
    r.ticket.isSome = true ∧ r.open_time.isSome = true ∧ r.symbol.isSome = true ∧
    (DataProcessor.processTrades rows source filename).1.Pairwise
      (fun a b => a.open_time.getD 0 ≤ b.open_time.getD 0) ∧
    (DataProcessor.processTrades rows source filename).2.total_trades =
      (DataProcessor.processTrades rows source filename).1.length := by
  have hmem : r ∈ (DataProcessor.remove_invalid_trades
      ((rows.map DataProcessor.convert_data_types).map
        DataProcessor.handle_missing_values)).map
      DataProcessor.calculate_additional_fields := by
    simpa [DataProcessor.processTrades, DataProcessor.clean_data,
      List.mem_mergeSort] using hr
  obtain ⟨r', hr', rfl⟩ := List.mem_map.mp hmem
  have hv : DataProcessor.valid_trade r' = true :=
    (List.mem_filter.mp hr').2
  simp only [DataProcessor.valid_trade, Bool.and_eq_true, Bool.or_eq_true,
    decide_eq_true_eq] at hv
  obtain ⟨⟨⟨⟨⟨⟨⟨⟨ht, hot⟩, hty⟩, hsz⟩, hsym⟩, hop⟩, hszpos⟩, hoppos⟩, htype⟩ := hv
  obtain ⟨p1, p2, p3, p4, p5, p6⟩ := calculate_additional_fields_preserves r'
  refine ⟨?_, ?_, ?_, ?_, ?_, ?_, ?_, rfl⟩
  · rw [p3]; exact htype
  · obtain ⟨q, hq⟩ := Option.isSome_iff_exists.mp hsz
    exact ⟨q, by rw [p4, hq], by rwa [hq, Option.getD_some] at hszpos⟩
  · obtain ⟨q, hq⟩ := Option.isSome_iff_exists.mp hop
    exact ⟨q, by rw [p6, hq], by rwa [hq, Option.getD_some] at hoppos⟩
  · rw [p1]; exact ht
  · rw [p2]; exact hot
  · rw [p5]; exact hsym
  · have hs := @List.sorted_mergeSort DataProcessor.RawRow
      (fun a b => decide (a.open_time.getD 0 ≤ b.open_time.getD 0))
      (fun a b c hab hbc => by
        simp only [decide_eq_true_eq] at *
        exact le_trans hab hbc)
      (fun a b => by
        simp only [Bool.or_eq_true, decide_eq_true_eq]
        exact le_total _ _)
      ((DataProcessor.remove_invalid_trades
        ((rows.map DataProcessor.convert_data_types).map
          DataProcessor.handle_missing_values)).map
        DataProcessor.calculate_additional_fields)
    exact hs.imp (fun hab => by simpa using hab)

theorem process_file_invariants_witness :
    (DataProcessor.sampleCleanRow ∈
      (DataProcessor.processTrades DataProcessor.sampleRows "MT5" "trades.csv").1) ∧
    ((DataProcessor.sampleCleanRow.type = some "buy" ∨
        DataProcessor.sampleCleanRow.type = some "sell") ∧
      (∃ q, DataProcessor.sampleCleanRow.size = some q ∧ 0 < q) ∧
      (∃ q, DataProcessor.sampleCleanRow.open_price = some q ∧ 0 < q) ∧
      DataProcessor.sampleCleanRow.ticket.isSome = true ∧
      DataProcessor.sampleCleanRow.open_time.isSome = true ∧
      DataProcessor.sampleCleanRow.symbol.isSome = true ∧
      (DataProcessor.processTrades DataProcessor.sampleRows "MT5" "trades.csv").1.Pairwise
        (fun a b => a.open_time.getD 0 ≤ b.open_time.getD 0) ∧
      (DataProcessor.processTrades DataProcessor.sampleRows "MT5" "trades.csv").2.total_trades =
        (DataProcessor.processTrades DataProcessor.sampleRows "MT5" "trades.csv").1.length) := by
  have hfil : DataProcessor.remove_invalid_trades
      ((DataProcessor.sampleRows.map DataProcessor.convert_data_types).map
        DataProcessor.handle_missing_values) = [DataProcessor.sampleHandledRow] := by
    rfl
  have hcalc : DataProcessor.calculate_additional_fields DataProcessor.sampleHandledRow
      = DataProcessor.sampleCleanRow := by
    have c1 : strContains (pyUpper (DataProcessor.toStr (some "EURUSD"))) "JPY" = false := by rfl
    have c2 : strContains (pyUpper (DataProcessor.toStr (some "EURUSD"))) "HUF" = false := by rfl
    simp [DataProcessor.calculate_additional_fields, DataProcessor.sampleHandledRow,
      DataProcessor.sampleCleanRow, c1, c2]
    norm_num
  have hmem : DataProcessor.sampleCleanRow ∈
      (DataProcessor.processTrades DataProcessor.sampleRows "MT5" "trades.csv").1 := by
    simp only [DataProcessor.processTrades, DataProcessor.clean_data,
      List.mem_mergeSort]
    rw [hfil]
    simp only [List.map_cons, List.map_nil, hcalc, List.mem_singleton]
  exact ⟨hmem, process_file_invariants DataProcessor.sampleRows "MT5" "trades.csv"
    DataProcessor.sampleCleanRow hmem⟩

/-- C7: each risk-adjusted return metric of the risk plugin — Sharpe,
Sortino, Calmar and Information ratio — evaluates to the sentinel 0 (never
an exception: the embedding is total) whenever its denominator (return
stdev, downside-only deviation, max drawdown magnitude, tracking error) is
0; the flat all-winning series [5, 5, 5] realizes all four zero-denominator
cases at once. -/
theorem risk_adjusted_zero_denominator (rfr : ℚ) (xs : List ℚ) (hne : xs ≠ []) :
    (RiskPlugin.sampleStd? xs = some 0 →
      (RiskPlugin.calculate_risk_adjusted_returns rfr xs).sharpe_ratio = some 0 ∧
      (RiskPlugin.calculate_risk_adjusted_returns rfr xs).information_ratio = some 0) ∧
    (RiskPlugin.downside_deviation? xs = some 0 →
      (RiskPlugin.calculate_risk_adjusted_returns rfr xs).sortino_ratio = some 0) ∧
    (RiskPlugin.max_drawdown xs = 0 →
      (RiskPlugin.calculate_risk_adjusted_returns rfr xs).calmar_ratio = 0) ∧
    (RiskPlugin.sampleStd? [(5:ℚ), 5, 5] = some 0 ∧
      RiskPlugin.downside_deviation? [(5:ℚ), 5, 5] = some 0 ∧
      RiskPlugin.max_drawdown [(5:ℚ), 5, 5] = 0) := by
  have hconc : RiskPlugin.sampleVar? [(5:ℚ), 5, 5] = some 0 := by
    norm_num [RiskPlugin.sampleVar?, RiskPlugin.sampleMean]
  have hstd : RiskPlugin.sampleStd? [(5:ℚ), 5, 5] = some 0 := by
    simp [RiskPlugin.sampleStd?, hconc, Real.sqrt_zero]
  have hdown : RiskPlugin.downside_deviation? [(5:ℚ), 5, 5] = some 0 := by
    norm_num [RiskPlugin.downside_deviation?, List.filter]
  have hdd : RiskPlugin.max_drawdown [(5:ℚ), 5, 5] = 0 := by
    norm_num [RiskPlugin.max_drawdown, RiskPlugin.cumsum, RiskPlugin.cumsumFrom,
      RiskPlugin.cummax, RiskPlugin.cummaxFrom, List.zipWith, List.min?,
      List.foldl, min_def]
  refine ⟨?_, ?_, ?_, hstd, hdown, hdd⟩
  · intro h
    constructor <;>
      · simp only [RiskPlugin.calculate_risk_adjusted_returns, h]
        simp
  · intro h
    simp only [RiskPlugin.calculate_risk_adjusted_returns, h]
    simp
  · intro h
    simp only [RiskPlugin.calculate_risk_adjusted_returns, h]
    simp

theorem risk_adjusted_zero_denominator_witness :
    (RiskPlugin.sampleStd? [(5:ℚ), 5, 5] = some 0 →
      (RiskPlugin.calculate_risk_adjusted_returns (1/50) [(5:ℚ), 5, 5]).sharpe_ratio = some 0 ∧
      (RiskPlugin.calculate_risk_adjusted_returns (1/50) [(5:ℚ), 5, 5]).information_ratio = some 0) ∧
    (RiskPlugin.downside_deviation? [(5:ℚ), 5, 5] = some 0 →
      (RiskPlugin.calculate_risk_adjusted_returns (1/50) [(5:ℚ), 5, 5]).sortino_ratio = some 0) ∧
    (RiskPlugin.max_drawdown [(5:ℚ), 5, 5] = 0 →
      (RiskPlugin.calculate_risk_adjusted_returns (1/50) [(5:ℚ), 5, 5]).calmar_ratio = 0) ∧
    (RiskPlugin.sampleStd? [(5:ℚ), 5, 5] = some 0 ∧
      RiskPlugin.downside_deviation? [(5:ℚ), 5, 5] = some 0 ∧
      RiskPlugin.max_drawdown [(5:ℚ), 5, 5] = 0) :=
  risk_adjusted_zero_denominator (1/50) [(5:ℚ), 5, 5] (by decide)

/-- C8: the Monte Carlo simulation reseeds the generator with the fixed seed
42 on every invocation, so its report is identical across any two prior
generator states; it draws exactly N samples (default 10,000) from the
modeled normal sampler parameterized by the sample mean and (ddof-1) std of
the profit series, and reports the loss probability over those samples and
exactly the percentile ladder 1, 5, 10, 25, 50, 75, 90, 95, 99. -/
theorem monte_carlo_spec (profits : List ℚ) (n r₁ r₂ : ℕ) :
    (RiskPlugin.monte_carlo_simulation profits n r₁).1 =
      (RiskPlugin.monte_carlo_simulation profits n r₂).1 ∧
    (RiskPlugin.monte_carlo_simulation profits n r₁).1.simulations = n ∧
    ((RiskPlugin.monte_carlo_simulation profits n r₁).1.percentiles.map Prod.fst) =
      [1, 5, 10, 25, 50, 75, 90, 95, 99] ∧
    (RiskPlugin.monte_carlo_simulation profits n r₁).1.probability_of_loss =
      ((RiskPlugin.npNormalSamples 42 ((RiskPlugin.sampleMean profits : ℚ) : ℝ)
        (Real.sqrt (((RiskPlugin.sampleVar? profits).getD 0 : ℚ) : ℝ)) n).filter
        (fun x => decide (x < 0))).length / (n : ℝ) ∧
    (RiskPlugin.npNormalSamples 42 ((RiskPlugin.sampleMean profits : ℚ) : ℝ)
      (Real.sqrt (((RiskPlugin.sampleVar? profits).getD 0 : ℚ) : ℝ)) n).length = n ∧
    RiskPlugin.defaultMonteCarloSimulations = 10000 := by
  refine ⟨rfl, rfl, ?_, rfl, ?_, rfl⟩
  · simp [RiskPlugin.monte_carlo_simulation]
  · simp [RiskPlugin.npNormalSamples]

/-- C9 counterexample: one call to _prepare_features on a fresh pipeline
object mutates the pipeline's own encoders field — the state after the call
differs from the state before it, so the claimed frame property (all state
outside the returned result unchanged) is false. -/
theorem ml_state_mutation_counterexample :
    (MLPipeline.prepare_features [MLPipeline.mlSampleTrade] MLPipeline.initState).2 ≠
      MLPipeline.initState ∧
    (MLPipeline.prepare_features [MLPipeline.mlSampleTrade] MLPipeline.initState).2.encoders ≠
      MLPipeline.initState.encoders := by
  have henc : (MLPipeline.prepare_features [MLPipeline.mlSampleTrade]
      MLPipeline.initState).2.encoders =
      MLPipeline.fitEncoders ([MLPipeline.mlSampleTrade].map MLPipeline.mkFeatureRow) := rfl
  have hne : MLPipeline.fitEncoders ([MLPipeline.mlSampleTrade].map MLPipeline.mkFeatureRow)
      ≠ ([] : List (String × MLPipeline.LabelEncoder)) := by
    simp [MLPipeline.fitEncoders]
  constructor
  · intro hcontra
    apply hne
    rw [← henc, hcontra]
    rfl
  · intro hcontra
    rw [henc] at hcontra
    exact hne hcontra

/-- C9 (amended): the encoders fitted by a _prepare_features call depend only
on that call's own trades — the returned frame and the fitted encoders are
identical regardless of the prior pipeline state, so one dataset's encoding
cannot bleed into another call's result — but the call does mutate the
shared pipeline object: self.encoders is overwritten with the fresh
encoders (scalers and models are left alone by this function, while
_run_kmeans_clustering stores its fitted scaler under the shared
"clustering" key without touching the encoders). -/
theorem ml_encoder_scoping (trades : List Trade) (s s' : MLPipeline.MLState)
    (h : trades ≠ []) :
    (MLPipeline.prepare_features trades s).1 = (MLPipeline.prepare_features trades s').1 ∧
    (MLPipeline.prepare_features trades s).2.encoders =
      MLPipeline.fitEncoders (trades.map MLPipeline.mkFeatureRow) ∧
    (MLPipeline.prepare_features trades s).2.scalers = s.scalers ∧
    (MLPipeline.prepare_features trades s).2.models = s.models ∧
    (MLPipeline.kmeans_scaler_update (trades.map MLPipeline.mkFeatureRow) s).encoders
      = s.encoders ∧
    ("clustering", MLPipeline.scaler_fit (trades.map MLPipeline.mkFeatureRow)) ∈
      (MLPipeline.kmeans_scaler_update (trades.map MLPipeline.mkFeatureRow) s).scalers := by
  have hrows : (trades.map MLPipeline.mkFeatureRow).isEmpty = false := by
    cases trades with
    | nil => exact absurd rfl h
    | cons a l => rfl
  refine ⟨?_, ?_, ?_, ?_, rfl, ?_⟩
  · simp [MLPipeline.prepare_features, hrows]
  · simp [MLPipeline.prepare_features, hrows]
  · simp [MLPipeline.prepare_features, hrows]
  · simp [MLPipeline.prepare_features, hrows]
  · simp [MLPipeline.kmeans_scaler_update]

theorem ml_encoder_scoping_witness :
    (MLPipeline.prepare_features [MLPipeline.mlSampleTrade] MLPipeline.initState).1 =
      (MLPipeline.prepare_features [MLPipeline.mlSampleTrade] MLPipeline.initState).1 ∧
    (MLPipeline.prepare_features [MLPipeline.mlSampleTrade] MLPipeline.initState).2.encoders =
      MLPipeline.fitEncoders ([MLPipeline.mlSampleTrade].map MLPipeline.mkFeatureRow) ∧
    (MLPipeline.prepare_features [MLPipeline.mlSampleTrade] MLPipeline.initState).2.scalers =
      MLPipeline.initState.scalers ∧
    (MLPipeline.prepare_features [MLPipeline.mlSampleTrade] MLPipeline.initState).2.models =
      MLPipeline.initState.models ∧
    (MLPipeline.kmeans_scaler_update ([MLPipeline.mlSampleTrade].map MLPipeline.mkFeatureRow)
      MLPipeline.initState).encoders = MLPipeline.initState.encoders ∧
    ("clustering", MLPipeline.scaler_fit ([MLPipeline.mlSampleTrade].map MLPipeline.mkFeatureRow)) ∈
      (MLPipeline.kmeans_scaler_update ([MLPipeline.mlSampleTrade].map MLPipeline.mkFeatureRow)
        MLPipeline.initState).scalers :=
  ml_encoder_scoping [MLPipeline.mlSampleTrade] MLPipeline.initState MLPipeline.initState
    (by decide)

end ForexAnalyzer
